import Mathlib

/-!
Shallow embedding of the Live2D idle-animation engine (`eyeBlink.js`: blink
engine and the two body-movement variants; `live2d.js`: gaze / microsaccade
loops).  Times are milliseconds as rationals; the host renderer's
`setParameterValueById` / `addParameterValueById` calls are modelled as write
events.  Random draws (`Math.random()` results, Box-Muller normal samples)
are explicit parameters of the embedded functions.
-/

namespace Live2d

/- ===================== Blink engine: constants ===================== -/

def BLINK_INTERVAL_MIN : ℚ := 2000

def BLINK_INTERVAL_MAX : ℚ := 6000

def BLINK_INTERVAL_AVERAGE : ℚ := 3500

def BLINK_DURATION_MIN : ℚ := 100

def BLINK_DURATION_AVERAGE : ℚ := 150

def BLINK_DURATION_MAX : ℚ := 400

/-- `CLOSE_PHASE_RATIO = 0.40` in the source (renamed for this development). -/
def CLOSE_PHASE_FRAC : ℚ := 40 / 100

/-- `CLOSED_PHASE_RATIO = 0.10` in the source (renamed for this development). -/
def CLOSED_PHASE_FRAC : ℚ := 10 / 100

/-- `OPEN_PHASE_RATIO = 0.50` in the source (renamed for this development). -/
def OPEN_PHASE_FRAC : ℚ := 50 / 100

def DOUBLE_BLINK_CHANCE : ℚ := 8 / 100

def TRIPLE_BLINK_CHANCE : ℚ := 2 / 100

/-- `PARTIAL_BLINK_CHANCE = 0.12` in the source (renamed for this development). -/
def PART_BLINK_CHANCE : ℚ := 12 / 100

/-- `PARTIAL_BLINK_MIN = 0.40` in the source (renamed for this development). -/
def PART_BLINK_MIN : ℚ := 40 / 100

/-- `PARTIAL_BLINK_MAX = 0.75` in the source (renamed for this development). -/
def PART_BLINK_MAX : ℚ := 75 / 100

def REFLEX_BLINK_INTERVAL_MIN : ℚ := 150

def REFLEX_BLINK_INTERVAL_MAX : ℚ := 400

/- ===================== Easing library ===================== -/

/-- `easeInQuad(t) = t*t`. -/
def easeInQuad (t : ℚ) : ℚ := t * t

/-- `easeOutCubic(t) = 1 - Math.pow(1-t, 3)`. -/
def easeOutCubic (t : ℚ) : ℚ := 1 - (1 - t) ^ 3

/- ===================== EyeBlinkState.getRandomInterval ===================== -/

/-- The Box-Muller standard-normal sample
`z = Math.sqrt(-2*Math.log(u1)) * Math.cos(2*Math.PI*u2)` computed from the two
uniform draws `u1 = Math.random()`, `u2 = Math.random()`. -/
noncomputable def boxMullerZ (u1 u2 : ℝ) : ℝ :=
  Real.sqrt (-2 * Real.log u1) * Real.cos (2 * Real.pi * u2)

/-- `EyeBlinkState.getRandomInterval`: scales the Box-Muller sample by
`stdDev = (BLINK_INTERVAL_MAX - BLINK_INTERVAL_MIN)/6` around
`mean = BLINK_INTERVAL_AVERAGE` and clamps to
`[BLINK_INTERVAL_MIN, BLINK_INTERVAL_MAX]` via
`Math.max(min, Math.min(max, interval))`. -/
noncomputable def getRandomInterval (u1 u2 : ℝ) : ℝ :=
  max ((BLINK_INTERVAL_MIN : ℝ))
    (min ((BLINK_INTERVAL_MAX : ℝ))
      ((BLINK_INTERVAL_AVERAGE : ℝ) +
        boxMullerZ u1 u2 * (((BLINK_INTERVAL_MAX : ℝ) - (BLINK_INTERVAL_MIN : ℝ)) / 6)))

/-- `getRandomBlinkDuration` with the Box-Muller sample `z` abstracted:
`duration = clamp(BLINK_DURATION_AVERAGE + z*stdDev, BLINK_DURATION_MIN, BLINK_DURATION_MAX)`
with `stdDev = (BLINK_DURATION_MAX - BLINK_DURATION_MIN)/6 = 50`. -/
def getRandomBlinkDuration (z : ℚ) : ℚ :=
  max BLINK_DURATION_MIN
    (min BLINK_DURATION_MAX
      (BLINK_DURATION_AVERAGE + z * ((BLINK_DURATION_MAX - BLINK_DURATION_MIN) / 6)))

/- ===================== determineBlinkType ===================== -/

inductive BlinkKind where
  | triple
  | double
  | part
  | full
  deriving DecidableEq, Repr

/-- The object returned by `determineBlinkType`; `closure` is absent (`none`)
for the triple/double cases, exactly as in the source where those objects carry
no `closure` field. -/
structure BlinkType where
  kind : BlinkKind
  count : ℕ
  closure : Option ℚ
  deriving DecidableEq, Repr

/-- `determineBlinkType`: cumulative-probability draw over the four blink
kinds.  `rand` is the first `Math.random()` draw, `r2` the second one used
only for the closure fraction of a part-closure blink. -/
def determineBlinkType (rand r2 : ℚ) : BlinkType :=
  if rand < TRIPLE_BLINK_CHANCE then
    { kind := .triple, count := 3, closure := none }
  else if rand < TRIPLE_BLINK_CHANCE + DOUBLE_BLINK_CHANCE then
    { kind := .double, count := 2, closure := none }
  else if rand < TRIPLE_BLINK_CHANCE + DOUBLE_BLINK_CHANCE + PART_BLINK_CHANCE then
    { kind := .part, count := 1,
      closure := some (PART_BLINK_MIN + r2 * (PART_BLINK_MAX - PART_BLINK_MIN)) }
  else
    { kind := .full, count := 1, closure := some 1 }

/- ===================== Body movement: impulses ===================== -/

/-- One impulse record `{ active, value, decay }` of a body-movement channel. -/
structure Impulse where
  active : Bool
  value : ℚ
  decay : ℚ
  deriving DecidableEq, Repr

/-- `updateImpulse`: multiplies the value of an active impulse by its decay
factor and deactivates it (zeroing the value) when the magnitude drops below
`0.01`; inactive impulses are untouched. -/
def updateImpulse (i : Impulse) : Impulse :=
  if i.active then
    let v := i.value * i.decay
    if |v| < 1 / 100 then { i with active := false, value := 0 }
    else { i with value := v }
  else i

/- ===================== Body movement: idle/talking state ===================== -/

def IDLE_THRESHOLD_MS : ℚ := 500

inductive Activity where
  | idle
  | talking
  deriving DecidableEq, Repr

/-- The activity-related fields of `BodyMovementState`. -/
structure MovementState where
  currentState : Activity
  lastMouthActivity : ℚ
  deriving DecidableEq, Repr

/-- `updateMovementState(character, isMouthMoving)` with `now = Date.now()`
made explicit: a true notification stamps `lastMouthActivity` and switches to
talking; a false notification switches to idle only when more than
`IDLE_THRESHOLD_MS` elapsed since the last activity. -/
def updateMovementState (s : MovementState) (now : ℚ) (isMouthMoving : Bool) : MovementState :=
  if isMouthMoving then
    { currentState := .talking, lastMouthActivity := now }
  else if now - s.lastMouthActivity > IDLE_THRESHOLD_MS ∧ s.currentState ≠ .idle then
    { s with currentState := .idle }
  else s

/-- `notifyMouthActivity` just forwards to `updateMovementState`. -/
def notifyMouthActivity (s : MovementState) (now : ℚ) (isActive : Bool) : MovementState :=
  updateMovementState s now isActive

/-- Fold a sequence of timed `notifyMouthActivity(character, isActive)` calls
(the only operations that ever mutate `currentState`). -/
def processEvents (s0 : MovementState) (evs : List (ℚ × Bool)) : MovementState :=
  evs.foldl (fun s e => notifyMouthActivity s e.1 e.2) s0

/-- Number of talking-to-idle transitions performed while processing a
sequence of timed `notifyMouthActivity` calls. -/
def idleTransitionCount (s0 : MovementState) (evs : List (ℚ × Bool)) : ℕ :=
  (evs.foldl
    (fun acc e =>
      let s2 := notifyMouthActivity acc.1 e.1 e.2
      (s2, acc.2 + (if acc.1.currentState = .talking ∧ s2.currentState = .idle then 1 else 0)))
    (s0, 0)).2

/- ===================== Body movement: spring integrator ===================== -/

/-- One channel's spring-damper state (`currentValues[param]`,
`velocities[param]`). -/
structure SpringState where
  current : ℚ
  velocity : ℚ
  deriving DecidableEq, Repr

/-- The per-channel tail of one `updateBodyMovement` iteration:
`targetValue = Math.max(-1, Math.min(1, targetValue))`;
`springForce = (target - current) * springStiffness`;
`velocity = velocity * damping + springForce`;
`current += velocity`.  Returns the clamped target together with the new
spring state. -/
def updateBodyMovementStep (damping stiffness rawTarget : ℚ) (st : SpringState) :
    ℚ × SpringState :=
  let target := max (-1) (min 1 rawTarget)
  let springForce := (target - st.current) * stiffness
  let v := st.velocity * damping + springForce
  (target, { current := st.current + v, velocity := v })

/-- Iterate `updateBodyMovementStep` over a list of raw targets, starting from
the constructor state `current = velocity = 0`. -/
def runBodyMovement (damping stiffness : ℚ) (targets : List ℚ) : SpringState :=
  targets.foldl (fun st t => (updateBodyMovementStep damping stiffness t st).2)
    { current := 0, velocity := 0 }

/-- Default talking-state damping: `smoothness` with default `0.85`. -/
def talkingDamping : ℚ := 85 / 100

/-- Default talking-state stiffness: `0.15 * (2 - smoothness)` at the default
`smoothness = 0.85`, i.e. `0.15 * 1.15 = 0.1725`. -/
def talkingStiffness : ℚ := 15 / 100 * (2 - 85 / 100)

/- ===================== Microsaccades (autoMicrosaccades) ===================== -/

/-- `SACCADE_STEPS = Math.max(2, Math.floor(MICROSACCADE_DURATION / 5))`. -/
def saccadeSteps (duration : ℚ) : ℕ := max 2 (⌊duration / 5⌋.toNat)

/-- `DRIFT_STEPS = Math.max(3, Math.floor(MICROSACCADE_DURATION / 3))`. -/
def driftSteps (duration : ℚ) : ℕ := max 3 (⌊duration / 3⌋.toNat)

/-- Excursion easing: `progress < 0.8 ? progress * 1.25 : 1 - Math.pow(2 * (1 - progress), 2)`. -/
def saccadeEased (p : ℚ) : ℚ :=
  if p < 8 / 10 then p * (125 / 100) else 1 - (2 * (1 - p)) ^ 2

/-- Drift-back easing: `1 - Math.pow(1 - progress, 2)`. -/
def driftEased (p : ℚ) : ℚ := 1 - (1 - p) ^ 2

/-- The offsets passed to `addParameterValueById` on one eye axis during the
fast-excursion loop: `microsaccadeX * eased` for `step = 0 .. SACCADE_STEPS`. -/
def saccadeAddedOffsets (m duration : ℚ) : List ℚ :=
  (List.range (saccadeSteps duration + 1)).map
    (fun step => m * saccadeEased ((step : ℚ) / (saccadeSteps duration : ℚ)))

/-- The offsets passed to `addParameterValueById` during the drift-back loop:
`returnX - microsaccadeX` with `returnX = microsaccadeX * (1 - eased)`, for
`step = 0 .. DRIFT_STEPS`. -/
def driftAddedOffsets (m duration : ℚ) : List ℚ :=
  (List.range (driftSteps duration + 1)).map
    (fun step => m * (1 - driftEased ((step : ℚ) / (driftSteps duration : ℚ))) - m)

/-- Net relative contribution of one full microsaccade excursion+return cycle
on one eye axis: the sum of every `addParameterValueById` offset issued by the
two loops. -/
def microsaccadeNet (m duration : ℚ) : ℚ :=
  (saccadeAddedOffsets m duration).sum + (driftAddedOffsets m duration).sum

/- ===================== Blink engine: timed animation model ===================== -/

/-- `frameTime = 1000 / FRAME_RATE` with `FRAME_RATE = 60`. -/
def frameTime : ℚ := 1000 / 60

/-- `Math.ceil(duration / frameTime)`, the step count of a blink phase. -/
def stepsOf (duration : ℚ) : ℕ := (⌈duration / frameTime⌉).toNat

/-- One animation phase of `performEyeBlink`.  `clearAt` is the instant at
which `stopEyeBlink` clears `eye.isBlinking`; a blink that started at
`blinkStart` re-set the flag to true, so at a check made at time `t` the flag
reads false exactly when `blinkStart < clearAt ∧ clearAt ≤ t` (the loop body
checks the flag, writes `vals step`, then awaits one `frameTime`).  Returns
the (time, value) writes of the phase and the time at which the loop exits. -/
def runBlinkPhase (clearAt blinkStart : ℚ) (vals : ℕ → ℚ) :
    ℕ → ℚ → ℕ → List (ℚ × ℚ) × ℚ
  | 0, t, _ => ([], t)
  | fuel + 1, t, step =>
    if blinkStart < clearAt ∧ clearAt ≤ t then ([], t)
    else
      let rest := runBlinkPhase clearAt blinkStart vals fuel (t + frameTime) (step + 1)
      ((t, vals step) :: rest.1, rest.2)

/-- The timed `setParameterValueById` writes of one `performEyeBlink` call on
one eye channel: close phase (easeInQuad toward
`targetClosedValue = minValue + (maxValue-minValue)*closureAmount`), a
closed-hold pause, open phase (easeOutCubic back toward `minValue`), and the
unconditional final write forcing the channel to `minValue`. -/
def performEyeBlinkWrites (clearAt start baseDuration blinkSpeed minV maxV closure : ℚ) :
    List (ℚ × ℚ) :=
  let totalDuration := baseDuration / blinkSpeed
  let closeDuration := totalDuration * CLOSE_PHASE_FRAC
  let closedDuration := totalDuration * CLOSED_PHASE_FRAC
  let openDuration := totalDuration * OPEN_PHASE_FRAC
  let closeSteps := stepsOf closeDuration
  let openSteps := stepsOf openDuration
  let targetClosed := minV + (maxV - minV) * closure
  let closeVals : ℕ → ℚ :=
    fun step => minV + (targetClosed - minV) * easeInQuad ((step : ℚ) / (closeSteps : ℚ))
  let close := runBlinkPhase clearAt start closeVals (closeSteps + 1) start 0
  let openStart := close.2 + closedDuration
  let openVals : ℕ → ℚ :=
    fun step => targetClosed + (minV - targetClosed) * easeOutCubic ((step : ℚ) / (openSteps : ℚ))
  let opn := runBlinkPhase clearAt start openVals (openSteps + 1) openStart 0
  close.1 ++ opn.1 ++ [(opn.2, minV)]

/-- The per-eye state mutated by `performEyeBlink`. -/
structure EyeState where
  paramId : String
  minValue : ℚ
  maxValue : ℚ
  currentValue : ℚ
  isBlinking : Bool
  deriving DecidableEq, Repr

/-- A whole `performEyeBlink` call: returns early (no flag change, no writes)
when the eye has no configured parameter id; otherwise sets `isBlinking`,
emits the phase writes (threading `currentValue` through each successful
write), and finally clears `isBlinking` after the forced `minValue` write. -/
def performEyeBlinkRun (clearAt start baseDuration blinkSpeed closure : ℚ) (eye : EyeState) :
    EyeState × List (ℚ × ℚ) :=
  if eye.paramId = "" then (eye, [])
  else
    let ws := performEyeBlinkWrites clearAt start baseDuration blinkSpeed
      eye.minValue eye.maxValue closure
    ({ eye with
        currentValue := (ws.map Prod.snd).getLastD eye.currentValue,
        isBlinking := false },
      ws)

/-- `stopEyeBlink` clears the running and blinking flags, then
`await delay(200)`: it returns 200 ms after it is called. -/
def stopEyeBlinkReturnTime (tStop : ℚ) : ℚ := tStop + 200

/-- `performBlinkSeries` on a character with one configured eye: blink `i`
starts at the running start time `s` with the series' hard-coded
`{ type: 'full', closure: 1.0 }`; `performBothEyesBlink` fires the blink
without awaiting it and returns after the desync delay, and the series then
awaits the inter-blink gap, so blink `i+1` starts at
`s + desyncs i + gaps i`. -/
def performBlinkSeriesWrites (clearAt blinkSpeed minV maxV : ℚ)
    (durations gaps desyncs : ℕ → ℚ) :
    ℕ → ℚ → ℕ → List (ℚ × ℚ)
  | 0, _, _ => []
  | n + 1, s, i =>
    performEyeBlinkWrites clearAt s (durations i) blinkSpeed minV maxV 1 ++
      performBlinkSeriesWrites clearAt blinkSpeed minV maxV durations gaps desyncs
        n (s + desyncs i + gaps i) (i + 1)

/-- The blink descriptor used for every blink of `performBlinkSeries`:
the loop body builds `{ type: 'full', closure: 1.0 }` for each iteration, and
`performEyeBlink` then draws its duration from `getRandomBlinkDuration`. -/
structure SeriesBlink where
  kind : BlinkKind
  closure : ℚ
  duration : ℚ
  deriving DecidableEq, Repr

/-- The descriptors of the `count` blinks played by `performBlinkSeries`
(`z i` is the Box-Muller draw of blink `i`'s duration). -/
def performBlinkSeriesSpecs (count : ℕ) (z : ℕ → ℚ) : List SeriesBlink :=
  (List.range count).map
    (fun i => { kind := .full, closure := 1, duration := getRandomBlinkDuration (z i) })

/-- The inter-blink gap of `performBlinkSeries`:
`REFLEX_BLINK_INTERVAL_MIN + Math.random() * (REFLEX_BLINK_INTERVAL_MAX - REFLEX_BLINK_INTERVAL_MIN)`. -/
def seriesGap (u : ℚ) : ℚ :=
  REFLEX_BLINK_INTERVAL_MIN + u * (REFLEX_BLINK_INTERVAL_MAX - REFLEX_BLINK_INTERVAL_MIN)

/- ===================== Gaze engine (autoEyeMovement) ===================== -/

/-- The fixation-target distance sampled in the `CENTER_WEIGHT === 1` branch of
`autoEyeMovement`:
`Math.max(AMPLITUDE_CENTER, 0.1) + Math.random() * Math.max(AMPLITUDE_PERIPHERAL - AMPLITUDE_CENTER, 0.1)`. -/
def peripheralDistance (amplitudeCenter amplitudePeripheral r : ℚ) : ℚ :=
  max amplitudeCenter (1 / 10) + r * max (amplitudePeripheral - amplitudeCenter) (1 / 10)

/-- The fixation target `(targetX, targetY) = (cos angle * distance, sin angle * distance)`. -/
noncomputable def peripheralTarget (angle : ℝ) (distance : ℝ) : ℝ × ℝ :=
  (Real.cos angle * distance, Real.sin angle * distance)

/- ===================== Theorems ===================== -/

/-- Claim C6: every value returned by `EyeBlinkState.getRandomInterval`
satisfies `BLINK_INTERVAL_MIN ≤ interval ≤ BLINK_INTERVAL_MAX`
(2000 ≤ interval ≤ 6000), for every pair of uniform random draws used by the
Box-Muller transform; the clamp `Math.max(min, Math.min(max, ·))` enforces the
strict min/max bounds whatever the normal sample is (and no attention-state
multiplier exists in the code to perturb them). -/
theorem getRandomInterval_bounds (u1 u2 : ℝ) :
    (BLINK_INTERVAL_MIN : ℝ) ≤ getRandomInterval u1 u2 ∧
      getRandomInterval u1 u2 ≤ (BLINK_INTERVAL_MAX : ℝ) := by
  unfold getRandomInterval
  constructor
  · exact le_max_left _ _
  · exact max_le (by norm_num [BLINK_INTERVAL_MIN, BLINK_INTERVAL_MAX]) (min_le_left _ _)

/-- Claim C8: `determineBlinkType` draws the blink type by cumulative
probability over triple/double/part/full: the result is a triple (count 3) iff
`r < 0.02`, a double (count 2) iff `0.02 ≤ r < 0.10`, part-closure (count 1,
closure in `[0.40, 0.75]`) iff `0.10 ≤ r < 0.22`, and full (closure exactly
1.0) for the remaining mass `0.22 ≤ r < 1`. -/
theorem determineBlinkType_cumulative (r r2 : ℚ) (h0 : 0 ≤ r) (h1 : r < 1)
    (h2 : 0 ≤ r2) (h3 : r2 ≤ 1) :
    ((determineBlinkType r r2).kind = .triple ↔ r < TRIPLE_BLINK_CHANCE) ∧
    ((determineBlinkType r r2).kind = .double ↔
      TRIPLE_BLINK_CHANCE ≤ r ∧ r < TRIPLE_BLINK_CHANCE + DOUBLE_BLINK_CHANCE) ∧
    ((determineBlinkType r r2).kind = .part ↔
      TRIPLE_BLINK_CHANCE + DOUBLE_BLINK_CHANCE ≤ r ∧
        r < TRIPLE_BLINK_CHANCE + DOUBLE_BLINK_CHANCE + PART_BLINK_CHANCE) ∧
    ((determineBlinkType r r2).kind = .full ↔
      TRIPLE_BLINK_CHANCE + DOUBLE_BLINK_CHANCE + PART_BLINK_CHANCE ≤ r) ∧
    ((determineBlinkType r r2).kind = .triple → (determineBlinkType r r2).count = 3) ∧
    ((determineBlinkType r r2).kind = .double → (determineBlinkType r r2).count = 2) ∧
    ((determineBlinkType r r2).kind = .part →
      (determineBlinkType r r2).count = 1 ∧
        ∃ c, (determineBlinkType r r2).closure = some c ∧
          PART_BLINK_MIN ≤ c ∧ c ≤ PART_BLINK_MAX) ∧
    ((determineBlinkType r r2).kind = .full →
      (determineBlinkType r r2).count = 1 ∧ (determineBlinkType r r2).closure = some 1) := by
  have hD : (0 : ℚ) ≤ DOUBLE_BLINK_CHANCE := by norm_num [DOUBLE_BLINK_CHANCE]
  have hP : (0 : ℚ) ≤ PART_BLINK_CHANCE := by norm_num [PART_BLINK_CHANCE]
  have hPd : (0 : ℚ) ≤ PART_BLINK_MAX - PART_BLINK_MIN := by
    norm_num [PART_BLINK_MIN, PART_BLINK_MAX]
  unfold determineBlinkType
  split_ifs with ha hb hc
  · exact ⟨iff_of_true rfl ha,
      iff_of_false (by decide) (by rintro ⟨hx, -⟩; exact absurd ha (not_lt.mpr hx)),
      iff_of_false (by decide) (by rintro ⟨hx, -⟩; exact absurd ha (not_lt.mpr (by linarith))),
      iff_of_false (by decide) (fun hx => absurd ha (not_lt.mpr (by linarith))),
      fun _ => rfl,
      fun h => absurd h (by decide),
      fun h => absurd h (by decide),
      fun h => absurd h (by decide)⟩
  · have hta := not_lt.mp ha
    exact ⟨iff_of_false (by decide) (fun hx => absurd hx (not_lt.mpr hta)),
      iff_of_true rfl ⟨hta, hb⟩,
      iff_of_false (by decide) (by rintro ⟨hx, -⟩; exact absurd hb (not_lt.mpr hx)),
      iff_of_false (by decide) (fun hx => absurd hb (not_lt.mpr (by linarith))),
      fun h => absurd h (by decide),
      fun _ => rfl,
      fun h => absurd h (by decide),
      fun h => absurd h (by decide)⟩
  · have hta := not_lt.mp ha
    have htb := not_lt.mp hb
    refine ⟨iff_of_false (by decide) (fun hx => absurd hx (not_lt.mpr hta)),
      iff_of_false (by decide) (by rintro ⟨-, hx⟩; exact absurd htb (not_le.mpr hx)),
      iff_of_true rfl ⟨htb, hc⟩,
      iff_of_false (by decide) (fun hx => absurd hc (not_lt.mpr hx)),
      fun h => absurd h (by decide),
      fun h => absurd h (by decide),
      fun _ => ⟨rfl, PART_BLINK_MIN + r2 * (PART_BLINK_MAX - PART_BLINK_MIN), rfl, ?_, ?_⟩,
      fun h => absurd h (by decide)⟩
    · have := mul_nonneg h2 hPd
      linarith
    · have := mul_le_mul_of_nonneg_right h3 hPd
      have hsum : PART_BLINK_MIN + (PART_BLINK_MAX - PART_BLINK_MIN) = PART_BLINK_MAX := by ring
      linarith
  · have hta := not_lt.mp ha
    have htb := not_lt.mp hb
    have htc := not_lt.mp hc
    exact ⟨iff_of_false (by decide) (fun hx => absurd hx (not_lt.mpr (by linarith))),
      iff_of_false (by decide) (by rintro ⟨-, hx⟩; exact absurd hx (not_lt.mpr (by linarith))),
      iff_of_false (by decide) (by rintro ⟨-, hx⟩; exact absurd hx (not_lt.mpr htc)),
      iff_of_true rfl htc,
      fun h => absurd h (by decide),
      fun h => absurd h (by decide),
      fun h => absurd h (by decide),
      fun _ => ⟨rfl, rfl⟩⟩

/-- Witness for claim C8 at the concrete draw `r = 1/2`, `r2 = 0`
(the full-blink region). -/
theorem determineBlinkType_cumulative_witness :
    (determineBlinkType (1/2) 0).kind = BlinkKind.full :=
  (determineBlinkType_cumulative (1/2) 0 (by norm_num) (by norm_num) le_rfl
    zero_le_one).2.2.2.1.mpr
    (by norm_num [TRIPLE_BLINK_CHANCE, DOUBLE_BLINK_CHANCE, PART_BLINK_CHANCE])

/-- Claim C10: for an impulse with decay factor in `(0,1)` (and the reachable
state invariant that a deactivated impulse has value 0), `updateImpulse` never
increases the magnitude of the value; afterwards the impulse is either still
active with magnitude at least `0.01`, or deactivated with value exactly `0`;
and an inactive impulse is never modified. -/
theorem updateImpulse_invariant (i : Impulse) (hd0 : 0 < i.decay) (hd1 : i.decay < 1)
    (hz : i.active = false → i.value = 0) :
    |(updateImpulse i).value| ≤ |i.value| ∧
    ((updateImpulse i).active = true → 1/100 ≤ |(updateImpulse i).value|) ∧
    ((updateImpulse i).active = false → (updateImpulse i).value = 0) ∧
    (i.active = false → updateImpulse i = i) := by
  have hdec : |i.value * i.decay| ≤ |i.value| := by
    rw [abs_mul]
    calc |i.value| * |i.decay| ≤ |i.value| * 1 := by
          apply mul_le_mul_of_nonneg_left _ (abs_nonneg _)
          rw [abs_of_pos hd0]; linarith
      _ = |i.value| := mul_one _
  unfold updateImpulse
  by_cases hact : i.active = true
  · rw [if_pos hact]
    dsimp only
    split_ifs with hsmall
    · refine ⟨?_, ?_, fun _ => rfl, ?_⟩
      · have h0 : |(0 : ℚ)| = 0 := abs_zero
        simp only [h0]
        exact abs_nonneg _
      · intro h; exact absurd h (by simp)
      · intro h; rw [h] at hact; exact absurd hact (by simp)
    · refine ⟨hdec, fun _ => not_lt.mp hsmall, ?_, ?_⟩
      · intro h; exact absurd (h.symm.trans hact) (by simp)
      · intro h; rw [h] at hact; exact absurd hact (by simp)
  · rw [if_neg hact]
    have hfalse : i.active = false := by
      revert hact; cases i.active <;> simp
    exact ⟨le_rfl, fun h => absurd h hact, fun _ => hz hfalse, fun _ => rfl⟩

/-- Witness for claim C10 at the concrete active impulse
`{active := true, value := 1/2, decay := 1/2}`. -/
theorem updateImpulse_invariant_witness :
    |(updateImpulse { active := true, value := 1/2, decay := 1/2 }).value| ≤ |(1/2 : ℚ)| :=
  (updateImpulse_invariant { active := true, value := 1/2, decay := 1/2 }
    (by norm_num) (by norm_num) (by simp)).1

/-- Counterexample to claim C3: at the default talking-state weights
(`damping = smoothness = 0.85`, `springStiffness = 0.15*(2-0.85) = 0.1725`),
holding the raw target at 1 drives `currentValues` above 1 after only four
ticks of the spring integrator, refuting the `[-1,1]` invariant. -/
theorem bodyMovement_current_exceeds_one :
    1 < (runBodyMovement talkingDamping talkingStiffness [1, 1, 1, 1]).current := by
  norm_num [runBodyMovement, updateBodyMovementStep, talkingDamping, talkingStiffness]

/-- Amended claim C3: what the per-tick update actually confines to `[-1,1]`
is the clamped `targetValues` (clamped every tick by
`Math.max(-1, Math.min(1, targetValue))`); the spring-integrated
`currentValues` can transiently overshoot that interval. -/
theorem updateBodyMovementStep_target_clamped (damping stiffness rawTarget : ℚ)
    (st : SpringState) :
    -1 ≤ (updateBodyMovementStep damping stiffness rawTarget st).1 ∧
      (updateBodyMovementStep damping stiffness rawTarget st).1 ≤ 1 := by
  unfold updateBodyMovementStep
  exact ⟨le_max_left _ _, max_le (by norm_num) (min_le_left _ _)⟩

/-- Claim C9: in the `CENTER_WEIGHT === 1` branch of `autoEyeMovement`, the
sampled fixation-target distance is at least the center amplitude, so the
target `(cos(angle)*distance, sin(angle)*distance)` always lies at Euclidean
distance at least `AMPLITUDE_CENTER` from the origin. -/
theorem autoEyeMovement_weight_one_peripheral
    (amplitudeCenter amplitudePeripheral r : ℚ) (angle : ℝ) (hr : 0 ≤ r) :
    (amplitudeCenter : ℚ) ≤ peripheralDistance amplitudeCenter amplitudePeripheral r ∧
    ((amplitudeCenter : ℝ) ≤
      Real.sqrt
        ((peripheralTarget angle
            ((peripheralDistance amplitudeCenter amplitudePeripheral r : ℚ) : ℝ)).1 ^ 2 +
         (peripheralTarget angle
            ((peripheralDistance amplitudeCenter amplitudePeripheral r : ℚ) : ℝ)).2 ^ 2)) := by
  have hd : (amplitudeCenter : ℚ) ≤ peripheralDistance amplitudeCenter amplitudePeripheral r := by
    unfold peripheralDistance
    have h1 : amplitudeCenter ≤ max amplitudeCenter (1/10) := le_max_left _ _
    have h2 : (0 : ℚ) ≤ r * max (amplitudePeripheral - amplitudeCenter) (1/10) := by
      apply mul_nonneg hr
      exact le_trans (by norm_num) (le_max_right _ _)
    linarith
  refine ⟨hd, ?_⟩
  unfold peripheralTarget
  have hsq :
      (Real.cos angle * ((peripheralDistance amplitudeCenter amplitudePeripheral r : ℚ) : ℝ)) ^ 2 +
      (Real.sin angle * ((peripheralDistance amplitudeCenter amplitudePeripheral r : ℚ) : ℝ)) ^ 2 =
      ((peripheralDistance amplitudeCenter amplitudePeripheral r : ℚ) : ℝ) ^ 2 := by
    have := Real.sin_sq_add_cos_sq angle
    nlinarith [this]
  rw [hsq, Real.sqrt_sq_eq_abs]
  calc (amplitudeCenter : ℝ)
      ≤ ((peripheralDistance amplitudeCenter amplitudePeripheral r : ℚ) : ℝ) := by
        exact_mod_cast hd
    _ ≤ |((peripheralDistance amplitudeCenter amplitudePeripheral r : ℚ) : ℝ)| := le_abs_self _

/-- Witness for claim C9 at `AMPLITUDE_CENTER = 1/4`, `AMPLITUDE_PERIPHERAL = 1`,
`r = 0`, `angle = 0`. -/
theorem autoEyeMovement_weight_one_peripheral_witness :
    ((1/4 : ℚ) ≤ peripheralDistance (1/4) 1 0) :=
  (autoEyeMovement_weight_one_peripheral (1/4) 1 0 0 le_rfl).1

/-- A true notification always switches to talking and stamps the time. -/
lemma updateMovementState_true (s : MovementState) (now : ℚ) :
    updateMovementState s now true =
      { currentState := .talking, lastMouthActivity := now } := by
  simp [updateMovementState]

/-- A false notification past the debounce threshold switches to idle. -/
lemma updateMovementState_false_idle (s : MovementState) (now : ℚ)
    (h : IDLE_THRESHOLD_MS < now - s.lastMouthActivity) (hs : s.currentState ≠ .idle) :
    updateMovementState s now false = { s with currentState := .idle } := by
  unfold updateMovementState
  rw [if_neg (by simp), if_pos ⟨h, hs⟩]

/-- A false notification within the debounce threshold changes nothing. -/
lemma updateMovementState_false_recent (s : MovementState) (now : ℚ)
    (h : now - s.lastMouthActivity ≤ IDLE_THRESHOLD_MS) :
    updateMovementState s now false = s := by
  unfold updateMovementState
  rw [if_neg (by simp), if_neg (by rintro ⟨hx, -⟩; exact absurd hx (not_lt.mpr h))]

/-- Counterexample to claim C2: after `notifyMouthActivity(character, true)`
with *no further calls*, the engine never transitions to idle — the debounce
check lives inside `updateMovementState`, which only runs on an incoming
notification, so the activity state stays talking forever (zero transitions,
not exactly one). -/
theorem notifyMouthActivity_silence_no_transition :
    (processEvents { currentState := .idle, lastMouthActivity := 0 }
        [((0 : ℚ), true)]).currentState = Activity.talking ∧
    idleTransitionCount { currentState := .idle, lastMouthActivity := 0 }
        [((0 : ℚ), true)] = 0 := by
  constructor
  · simp [processEvents, notifyMouthActivity, updateMovementState]
  · simp [idleTransitionCount, notifyMouthActivity, updateMovementState]

/-- Amended claim C2: the talking-to-idle transition happens only when a
subsequent `notifyMouthActivity(character, false)` call arrives; when that
call comes more than `IDLE_THRESHOLD_MS` (500 ms) after the last true
notification the transition happens exactly once, and a false call at or
before the threshold changes nothing (never earlier than the debounce). -/
theorem notifyMouthActivity_debounced (s0 : MovementState) (t0 t1 : ℚ) :
    (IDLE_THRESHOLD_MS < t1 - t0 →
      (processEvents s0 [(t0, true), (t1, false)]).currentState = Activity.idle ∧
      idleTransitionCount s0 [(t0, true), (t1, false)] = 1) ∧
    (t1 - t0 ≤ IDLE_THRESHOLD_MS →
      (processEvents s0 [(t0, true), (t1, false)]).currentState = Activity.talking ∧
      idleTransitionCount s0 [(t0, true), (t1, false)] = 0) := by
  constructor
  · intro h
    have e1 := updateMovementState_true s0 t0
    have e2 := updateMovementState_false_idle
      { currentState := Activity.talking, lastMouthActivity := t0 } t1
      (by simpa using h) (by simp)
    constructor
    · simp [processEvents, notifyMouthActivity, e1, e2]
    · simp [idleTransitionCount, notifyMouthActivity, e1, e2]
  · intro h
    have e1 := updateMovementState_true s0 t0
    have e2 := updateMovementState_false_recent
      { currentState := Activity.talking, lastMouthActivity := t0 } t1 (by simpa using h)
    constructor
    · simp [processEvents, notifyMouthActivity, e1, e2]
    · simp [idleTransitionCount, notifyMouthActivity, e1, e2]

/-- Witness for the amended claim C2 at `t0 = 0`, `t1 = 501` (past the 500 ms
debounce threshold). -/
theorem notifyMouthActivity_debounced_witness :
    (processEvents { currentState := .idle, lastMouthActivity := 0 }
        [((0 : ℚ), true), ((501 : ℚ), false)]).currentState = Activity.idle ∧
    idleTransitionCount { currentState := .idle, lastMouthActivity := 0 }
        [((0 : ℚ), true), ((501 : ℚ), false)] = 1 :=
  (notifyMouthActivity_debounced { currentState := .idle, lastMouthActivity := 0 } 0 501).1
    (by norm_num [IDLE_THRESHOLD_MS])

/-- `SACCADE_STEPS` at the default `MICROSACCADE_DURATION = 15`. -/
lemma saccadeSteps_fifteen : saccadeSteps 15 = 3 := by
  have h : (15 : ℚ) / 5 = 3 := by norm_num
  rw [saccadeSteps, h]
  norm_num
  rfl

/-- `DRIFT_STEPS` at the default `MICROSACCADE_DURATION = 15`. -/
lemma driftSteps_fifteen : driftSteps 15 = 5 := by
  have h : (15 : ℚ) / 3 = 5 := by norm_num
  rw [driftSteps, h]
  norm_num
  rfl

/-- Claim C5 fails on the code (code bug): at the default microsaccade
duration 15 ms (excursion loop of 3 steps, drift loop of 5 steps) and an
excursion offset `microsaccadeX = 1/50`, the relative contributions passed to
`addParameterValueById` over one excursion+return cycle sum to `-31/1000`,
not 0: each cycle leaves a permanent gaze offset of `-(31/20) * microsaccadeX`,
contradicting the code's own intent of returning to the original position. -/
theorem microsaccade_net_drift_at_defaults :
    microsaccadeNet (1/50) 15 = -(31/1000) ∧ microsaccadeNet (1/50) 15 ≠ 0 := by
  have hnet : microsaccadeNet (1/50) 15 = -(31/1000) := by
    rw [microsaccadeNet, saccadeAddedOffsets, driftAddedOffsets, saccadeSteps_fifteen,
      driftSteps_fifteen]
    norm_num [List.range_succ, saccadeEased, driftEased]
  exact ⟨hnet, by rw [hnet]; norm_num⟩

/-- A sequence of all-zero Box-Muller draws. -/
def zeroDraws : ℕ → ℚ := fun _ => 0

/-- Counterexample to claim C4: in a double-blink series the second blink is
`{type: 'full', closure: 1.0}` (duration drawn from the normal single-blink
distribution, here 150 at the mean draw), and closure 1 does not lie in the
configured part-closure range `[0.40, 0.75]`. -/
theorem performBlinkSeries_subsequent_blink_not_part :
    (performBlinkSeriesSpecs 2 zeroDraws)[1]? =
      some { kind := BlinkKind.full, closure := 1, duration := 150 } ∧
    ¬ (PART_BLINK_MIN ≤ (1 : ℚ) ∧ (1 : ℚ) ≤ PART_BLINK_MAX) := by
  constructor
  · norm_num [performBlinkSeriesSpecs, zeroDraws, List.range_succ, getRandomBlinkDuration,
      BLINK_DURATION_MIN, BLINK_DURATION_AVERAGE, BLINK_DURATION_MAX]
  · norm_num [PART_BLINK_MIN, PART_BLINK_MAX]

/-- Amended claim C4: every blink of a multi-blink series (first and
subsequent alike) is played at full closure 1.0 with its duration drawn from
the same `getRandomBlinkDuration` distribution as a normal single blink, and
each pair of consecutive blinks is separated by a random inter-blink gap in
`[REFLEX_BLINK_INTERVAL_MIN, REFLEX_BLINK_INTERVAL_MAX] = [150, 400]`. -/
theorem performBlinkSeries_all_full (count i : ℕ) (z : ℕ → ℚ) (hi : i < count) (u : ℚ)
    (hu0 : 0 ≤ u) (hu1 : u ≤ 1) :
    (performBlinkSeriesSpecs count z)[i]? =
      some { kind := BlinkKind.full, closure := 1, duration := getRandomBlinkDuration (z i) } ∧
    REFLEX_BLINK_INTERVAL_MIN ≤ seriesGap u ∧ seriesGap u ≤ REFLEX_BLINK_INTERVAL_MAX := by
  refine ⟨?_, ?_, ?_⟩
  · simp [performBlinkSeriesSpecs, List.getElem?_map, List.getElem?_range, hi]
  · unfold seriesGap REFLEX_BLINK_INTERVAL_MIN REFLEX_BLINK_INTERVAL_MAX
    nlinarith
  · unfold seriesGap REFLEX_BLINK_INTERVAL_MIN REFLEX_BLINK_INTERVAL_MAX
    nlinarith

/-- Witness for the amended claim C4 in a double-blink series at the
mean-duration draw and a mid-range gap draw. -/
theorem performBlinkSeries_all_full_witness :
    (performBlinkSeriesSpecs 2 zeroDraws)[1]? =
      some { kind := BlinkKind.full, closure := 1,
             duration := getRandomBlinkDuration (zeroDraws 1) } ∧
    REFLEX_BLINK_INTERVAL_MIN ≤ seriesGap (1/2) ∧
      seriesGap (1/2) ≤ REFLEX_BLINK_INTERVAL_MAX :=
  performBlinkSeries_all_full 2 1 zeroDraws (by norm_num) (1/2) (by norm_num) (by norm_num)

/-- Every write of a phase loop happens strictly before the external clear:
the loop checks `isBlinking` before each write, so once the flag is cleared
(at `clearAt`, after the blink started) no later write is issued. -/
lemma runBlinkPhase_writes_lt (clearAt blinkStart : ℚ) (vals : ℕ → ℚ)
    (h : blinkStart < clearAt) :
    ∀ (fuel : ℕ) (t : ℚ) (k : ℕ) (w : ℚ × ℚ),
      w ∈ (runBlinkPhase clearAt blinkStart vals fuel t k).1 → w.1 < clearAt := by
  intro fuel
  induction fuel with
  | zero => intro t k w hw; simp [runBlinkPhase] at hw
  | succ n ih =>
    intro t k w hw
    rw [runBlinkPhase] at hw
    by_cases hc : blinkStart < clearAt ∧ clearAt ≤ t
    · rw [if_pos hc] at hw; simp at hw
    · rw [if_neg hc] at hw
      dsimp only at hw
      have ht : t < clearAt := by
        by_contra hnot
        exact hc ⟨h, le_of_not_lt hnot⟩
      rcases List.mem_cons.mp hw with hw1 | hw2
      · rw [hw1]; exact ht
      · exact ih (t + frameTime) (k + 1) w hw2

/-- A phase loop exits no later than one frame after the clear instant (or
immediately, if it starts after the clear). -/
lemma runBlinkPhase_end_le (clearAt blinkStart : ℚ) (vals : ℕ → ℚ)
    (h : blinkStart < clearAt) :
    ∀ (fuel : ℕ) (t : ℚ) (k : ℕ),
      (runBlinkPhase clearAt blinkStart vals fuel t k).2 ≤ max t (clearAt + frameTime) := by
  intro fuel
  induction fuel with
  | zero => intro t k; rw [runBlinkPhase]; exact le_max_left _ _
  | succ n ih =>
    intro t k
    rw [runBlinkPhase]
    by_cases hc : blinkStart < clearAt ∧ clearAt ≤ t
    · rw [if_pos hc]; exact le_max_left _ _
    · rw [if_neg hc]
      dsimp only
      have ht : t < clearAt := by
        by_contra hnot
        exact hc ⟨h, le_of_not_lt hnot⟩
      calc (runBlinkPhase clearAt blinkStart vals n (t + frameTime) (k + 1)).2
          ≤ max (t + frameTime) (clearAt + frameTime) := ih (t + frameTime) (k + 1)
        _ ≤ max t (clearAt + frameTime) := by
            apply max_le
            · exact le_trans (by linarith) (le_max_right t (clearAt + frameTime))
            · exact le_max_right _ _

/-- Generic bound for the three write groups of a blink whose flag is cleared
at `clearAt` after its start: loop writes precede the clear, and the forced
final write lands within one frame plus the closed-hold duration `cd` of it. -/
lemma blinkWrites_bound_generic (clearAt start cd : ℚ) (cvals ovals : ℕ → ℚ)
    (cfuel ofuel : ℕ) (minV : ℚ)
    (hstart : start < clearAt) (hcd0 : 0 ≤ cd) (hcd40 : cd ≤ 40) (w : ℚ × ℚ)
    (hw : w ∈ (runBlinkPhase clearAt start cvals cfuel start 0).1 ++
          (runBlinkPhase clearAt start ovals ofuel
            ((runBlinkPhase clearAt start cvals cfuel start 0).2 + cd) 0).1 ++
          [((runBlinkPhase clearAt start ovals ofuel
              ((runBlinkPhase clearAt start cvals cfuel start 0).2 + cd) 0).2, minV)]) :
    w.1 < clearAt + 200 := by
  have hftv : frameTime = 50 / 3 := by norm_num [frameTime]
  rw [List.mem_append, List.mem_append] at hw
  rcases hw with (hw | hw) | hw
  · have := runBlinkPhase_writes_lt clearAt start cvals hstart cfuel start 0 w hw
    linarith
  · have := runBlinkPhase_writes_lt clearAt start ovals hstart ofuel
      ((runBlinkPhase clearAt start cvals cfuel start 0).2 + cd) 0 w hw
    linarith
  · have hw1 : w.1 = (runBlinkPhase clearAt start ovals ofuel
        ((runBlinkPhase clearAt start cvals cfuel start 0).2 + cd) 0).2 := by
      rcases List.mem_singleton.mp hw with rfl
      rfl
    have h1 : (runBlinkPhase clearAt start cvals cfuel start 0).2 ≤
        max start (clearAt + frameTime) :=
      runBlinkPhase_end_le clearAt start cvals hstart cfuel start 0
    have hms : max start (clearAt + frameTime) = clearAt + frameTime :=
      max_eq_right (by linarith)
    rw [hms] at h1
    have h2 : (runBlinkPhase clearAt start ovals ofuel
        ((runBlinkPhase clearAt start cvals cfuel start 0).2 + cd) 0).2 ≤
        max ((runBlinkPhase clearAt start cvals cfuel start 0).2 + cd)
          (clearAt + frameTime) :=
      runBlinkPhase_end_le clearAt start ovals hstart ofuel _ 0
    have h3 : max ((runBlinkPhase clearAt start cvals cfuel start 0).2 + cd)
        (clearAt + frameTime) ≤ clearAt + frameTime + cd := by
      apply max_le
      · linarith
      · linarith
    rw [hw1]
    linarith

/-- Amended claim C1, positive part: a blink animation that is already in
flight when `stopEyeBlink` clears its `isBlinking` flag (at `clearAt`, with
the blink started strictly earlier) issues every one of its channel writes —
the abort-checked loop writes and the forced final `minValue` write — strictly
before `stopEyeBlink` returns at `clearAt + 200`; so the 200 ms wait suffices
for the currently-animating blink, just not for series blinks started later. -/
theorem stopEyeBlink_inflight_writes_bounded
    (clearAt start baseDuration blinkSpeed minV maxV closure : ℚ)
    (hstart : start < clearAt) (hd0 : 0 ≤ baseDuration)
    (hd1 : baseDuration ≤ BLINK_DURATION_MAX) (hs : 1 ≤ blinkSpeed) (w : ℚ × ℚ)
    (hw : w ∈ performEyeBlinkWrites clearAt start baseDuration blinkSpeed minV maxV closure) :
    w.1 < stopEyeBlinkReturnTime clearAt := by
  have hbs0 : (0 : ℚ) < blinkSpeed := by linarith
  have hdd : baseDuration / blinkSpeed ≤ 400 := by
    have := div_le_self hd0 hs
    have h400 : baseDuration ≤ 400 := by
      have : BLINK_DURATION_MAX = 400 := by norm_num [BLINK_DURATION_MAX]
      linarith [hd1, this.ge]
    linarith
  have hcd0 : 0 ≤ baseDuration / blinkSpeed * CLOSED_PHASE_FRAC :=
    mul_nonneg (div_nonneg hd0 (le_of_lt hbs0)) (by norm_num [CLOSED_PHASE_FRAC])
  have hcd40 : baseDuration / blinkSpeed * CLOSED_PHASE_FRAC ≤ 40 := by
    have hfrac : CLOSED_PHASE_FRAC = 10 / 100 := by norm_num [CLOSED_PHASE_FRAC]
    rw [hfrac]
    nlinarith [div_nonneg hd0 (le_of_lt hbs0)]
  unfold performEyeBlinkWrites at hw
  dsimp only at hw
  unfold stopEyeBlinkReturnTime
  exact blinkWrites_bound_generic clearAt start
    (baseDuration / blinkSpeed * CLOSED_PHASE_FRAC) _ _ _ _ minV hstart hcd0 hcd40 w hw

/-- The very first write of a blink (at its start time, value
`minValue + range*easeInQuad(0) = minValue`) is always issued: the flag was
re-set to true at the start, so the first check can never observe a clear. -/
lemma performEyeBlinkWrites_head_mem
    (clearAt start baseDuration blinkSpeed minV maxV closure : ℚ) :
    (start, minV) ∈
      performEyeBlinkWrites clearAt start baseDuration blinkSpeed minV maxV closure := by
  unfold performEyeBlinkWrites
  dsimp only
  rw [runBlinkPhase]
  rw [if_neg (by rintro ⟨h1, h2⟩; exact absurd (lt_of_lt_of_le h1 h2) (lt_irrefl start))]
  simp [easeInQuad]

/-- Witness for the amended claim C1 at clear time 1, blink started at 0 with
the mean duration 150 and speed 1: its first write (time 0) lands before the
stop return time 201. -/
theorem stopEyeBlink_inflight_writes_bounded_witness :
    (0 : ℚ) < stopEyeBlinkReturnTime 1 :=
  stopEyeBlink_inflight_writes_bounded 1 0 150 1 0 1 1 (by norm_num) (by norm_num)
    (by norm_num [BLINK_DURATION_MAX]) le_rfl ((0 : ℚ), (0 : ℚ))
    (performEyeBlinkWrites_head_mem 1 0 150 1 0 1 1)

/-- Per-blink base duration 150 ms for the series counterexample. -/
def dur150 : ℕ → ℚ := fun _ => 150

/-- Inter-blink gap 399 ms (inside the `[150, 400]` reflex range) for the
series counterexample. -/
def gap399 : ℕ → ℚ := fun _ => 399

/-- Zero eye desync for the series counterexample. -/
def desync0 : ℕ → ℚ := fun _ => 0

/-- Counterexample to claim C1: a double-blink series started at time 0 with a
399 ms inter-blink gap, whose `isBlinking` flag is cleared by `stopEyeBlink`
at time 1, still writes the eye channel at time 399 — after `stopEyeBlink`
returned at time 201 — because the series' second `performEyeBlink` re-sets
`isBlinking` itself when it starts. -/
theorem stopEyeBlink_series_writes_after_return :
    ((399 : ℚ), (0 : ℚ)) ∈
      performBlinkSeriesWrites 1 1 0 1 dur150 gap399 desync0 2 0 0 ∧
    stopEyeBlinkReturnTime 1 < 399 := by
  constructor
  · have h2 : ((399 : ℚ), (0 : ℚ)) ∈ performEyeBlinkWrites 1 399 (dur150 1) 1 0 1 1 :=
      performEyeBlinkWrites_head_mem 1 399 (dur150 1) 1 0 1 1
    have hs : performBlinkSeriesWrites 1 1 0 1 dur150 gap399 desync0 2 0 0 =
        performEyeBlinkWrites 1 0 (dur150 0) 1 0 1 1 ++
        (performEyeBlinkWrites 1 399 (dur150 1) 1 0 1 1 ++ []) := by
      show performBlinkSeriesWrites 1 1 0 1 dur150 gap399 desync0 (0 + 1 + 1) 0 0 = _
      rw [performBlinkSeriesWrites, performBlinkSeriesWrites, performBlinkSeriesWrites]
      norm_num [desync0, gap399]
    rw [hs]
    exact List.mem_append_right _ (List.mem_append_left _ h2)
  · norm_num [stopEyeBlinkReturnTime]

/-- The last value a blink writes (through `Prod.snd`) is the forced
`minValue`. -/
lemma performEyeBlinkWrites_last_snd
    (clearAt start baseDuration blinkSpeed minV maxV closure : ℚ) :
    ((performEyeBlinkWrites clearAt start baseDuration blinkSpeed minV maxV closure).map
      Prod.snd).getLast? = some minV := by
  unfold performEyeBlinkWrites
  dsimp only
  simp

/-- Claim C7: for an eye with a configured (non-empty) parameter id, a blink
animation leaves `currentValue` at exactly `minValue`, clears `isBlinking`,
and its final channel write is `minValue` — both on completion and on early
abort (any `clearAt`), assuming writes succeed. -/
theorem performEyeBlink_restores_open (clearAt start baseDuration blinkSpeed closure : ℚ)
    (eye : EyeState) (hp : eye.paramId ≠ "") :
    ((performEyeBlinkRun clearAt start baseDuration blinkSpeed closure eye).1.currentValue
        = eye.minValue) ∧
    ((performEyeBlinkRun clearAt start baseDuration blinkSpeed closure eye).1.isBlinking
        = false) ∧
    (((performEyeBlinkRun clearAt start baseDuration blinkSpeed closure eye).2.map
        Prod.snd).getLast? = some eye.minValue) := by
  unfold performEyeBlinkRun
  rw [if_neg hp]
  dsimp only
  have hlast := performEyeBlinkWrites_last_snd clearAt start baseDuration blinkSpeed
    eye.minValue eye.maxValue closure
  refine ⟨?_, rfl, hlast⟩
  rw [List.getLastD_eq_getLast?, hlast]
  rfl

/-- Witness for claim C7 on a configured left-eye channel `[0, 1]` with an
uninterrupted blink (clear far in the future). -/
theorem performEyeBlink_restores_open_witness :
    (performEyeBlinkRun 1000 0 150 1 1
        { paramId := "PARAM_EYE_L_OPEN", minValue := 0, maxValue := 1,
          currentValue := 1/2, isBlinking := true }).1.currentValue = 0 :=
  (performEyeBlink_restores_open 1000 0 150 1 1
      { paramId := "PARAM_EYE_L_OPEN", minValue := 0, maxValue := 1,
        currentValue := 1/2, isBlinking := true } (by decide)).1

end Live2d
